import Mathlib

/-!
Shallow embedding of src/x8h7_reset.c (portentax8-x8h7): a two-line
reset/boot-select controller for the X8's H7 coprocessor, exposed as a
single sysfs read/write attribute.

Line levels are the logical values exchanged with the gpiod consumer API
(gpiod_get_value / gpiod_set_value), modelled as Int. Side effects are
modelled by explicit state passing (the pair of line levels) plus an event
trace recording, in order, every line drive, log call, delay and sysfs
publication the code performs.
-/

namespace X8h7

/-- Error numbers used by the driver (returned negated, Linux style). -/
def EINVAL : Int := 22

def ERANGE : Int := 34

def ENOMEM : Int := 12

/-- A gpio descriptor as obtained from devm_gpiod_get: the only property the
driver ever consults is the active-low polarity flag fixed at acquisition. -/
structure GpioDesc where
  activeLow : Bool
deriving DecidableEq, Repr

/-- struct x8h7_rst_data: the two descriptor pointers (null = none). -/
structure X8h7RstData where
  nrst_gpio_desc : Option GpioDesc
  boot0_gpio_desc : Option GpioDesc
deriving DecidableEq, Repr

/-- The logical levels currently driven on the two lines. -/
structure LineState where
  nrstLevel : Int
  boot0Level : Int
deriving DecidableEq, Repr

/-- Observable actions of the driver, in program order. The delay constructor
exists in the modelled host API (msleep / usleep_range); whether this driver
ever emits it is a fact proved below, not assumed. -/
inductive Event where
  | setNrst (v : Int)
  | setBoot0 (v : Int)
  | acquireNrst (initLevel : Int)
  | acquireBoot0 (initLevel : Int)
  | delay (loMs hiMs : Nat)
  | printk (msg : String)
  | devInfo (msg : String)
  | devErr (msg : String)
  | sysfsCreate
  | sysfsRemove
deriving DecidableEq, Repr

/-- Events that drive a line level (explicit sets and acquisition-time
initialisation by devm_gpiod_get). -/
def linesDriveEvent : Event → Bool
  | Event.setNrst _ => true
  | Event.setBoot0 _ => true
  | Event.acquireNrst _ => true
  | Event.acquireBoot0 _ => true
  | _ => false

/-- Events that block for a bounded time window. -/
def isDelayEvent : Event → Bool
  | Event.delay _ _ => true
  | _ => false

/-- x8h7_reset_state (src/x8h7_reset.c:24-38): silently returns when the data
pointer or either descriptor is null; otherwise drives (nrst, boot0) to
(0, 1) when reset is requested and to (1, 0) otherwise. -/
def x8h7_reset_state (data : Option X8h7RstData) (reset : Bool) (s : LineState) :
    LineState × List Event :=
  match data with
  | some ⟨some _, some _⟩ =>
      if reset then
        (⟨0, 1⟩,
         [Event.printk "DAIM: request reset of x8h7", Event.setNrst 0, Event.setBoot0 1])
      else
        (⟨1, 0⟩,
         [Event.printk "DAIM: x8h7 exit from reset ", Event.setNrst 1, Event.setBoot0 0])
  | _ => (s, [])

/-- The state classification inlined in x8h7_reset_show (src/x8h7_reset.c:61-71):
(0, 1) reports 0, (1, 0) reports 1, every other pair reports 2. -/
def classify (nrst boot0 : Int) : Int :=
  if nrst = 0 ∧ boot0 = 1 then 0
  else if nrst = 1 ∧ boot0 = 0 then 1
  else 2

/-- x8h7_reset_show (src/x8h7_reset.c:47-74): -EINVAL when the data pointer or
either descriptor is null, otherwise reads both levels and reports their
classification. The line state is returned alongside to record the frame. -/
def x8h7_reset_show (data : Option X8h7RstData) (s : LineState) :
    Except Int Int × LineState :=
  match data with
  | some ⟨some _, some _⟩ => (Except.ok (classify s.nrstLevel s.boot0Level), s)
  | _ => (Except.error (-EINVAL), s)

/-- Long range of the 64-bit kernel the driver targets. -/
def longMin : Int := -(2 ^ 63)

def longMax : Int := 2 ^ 63 - 1

/-- Optional leading sign of a numeral, as kstrtol / _kstrtoull strip it. -/
def stripSign : List Char → Bool × List Char
  | '-' :: t => (true, t)
  | '+' :: t => (false, t)
  | cs => (false, cs)

/-- Value of a base-10 digit string. -/
def digitsVal (ds : List Char) : Nat :=
  ds.foldl (fun a c => a * 10 + (c.toNat - 48)) 0

/-- kstrtol(buf, 10, &value) of lib/kstrtox.c: an optional sign, at least one
decimal digit, nothing after the digits but an optional trailing newline;
-EINVAL for malformed input, -ERANGE when the value does not fit a long. -/
def kstrtol (s : String) : Except Int Int :=
  let p := stripSign s.toList
  let ds := p.2.takeWhile Char.isDigit
  let rest := p.2.dropWhile Char.isDigit
  if ds = [] then Except.error (-EINVAL)
  else if rest = [] ∨ rest = ['\n'] then
    let v : Int := if p.1 then -(digitsVal ds : Int) else (digitsVal ds : Int)
    if v < longMin ∨ longMax < v then Except.error (-ERANGE) else Except.ok v
  else Except.error (-EINVAL)

/-- Sign flag of an input as the parser strips it. -/
def numSign (buf : String) : Bool := (stripSign buf.toList).1

/-- Digit run of an input after the optional sign. -/
def numDigits (buf : String) : List Char :=
  ((stripSign buf.toList).2).takeWhile Char.isDigit

/-- What follows the digit run of an input. -/
def numRest (buf : String) : List Char :=
  ((stripSign buf.toList).2).dropWhile Char.isDigit

/-- An input the parser accepts syntactically: an optional sign, at least one
decimal digit, then nothing but an optional single trailing newline. -/
def wellFormedNumeral (buf : String) : Prop :=
  numDigits buf ≠ [] ∧ (numRest buf = [] ∨ numRest buf = ['\n'])

/-- The integer a well-formed input denotes. -/
def numeralValue (buf : String) : Int :=
  if numSign buf then -(digitsVal (numDigits buf) : Int) else (digitsVal (numDigits buf) : Int)

/-- Fits the 64-bit long range the parser checks. -/
def inLongRange (v : Int) : Prop :=
  longMin ≤ v ∧ v ≤ longMax

/-- x8h7_reset_store (src/x8h7_reset.c:78-104): -EINVAL on null data or
descriptors, the parse error when kstrtol fails, x8h7_reset_state on command
0 or 1 returning the byte count, and -EINVAL (with a logged error) otherwise. -/
def x8h7_reset_store (data : Option X8h7RstData) (buf : String) (s : LineState) :
    Except Int Nat × LineState × List Event :=
  match data with
  | some ⟨some nd, some bd⟩ =>
      match kstrtol buf with
      | Except.error e => (Except.error e, s, [])
      | Except.ok value =>
          if value = 0 then
            let r := x8h7_reset_state (some ⟨some nd, some bd⟩) true s
            (Except.ok buf.length, r.1, r.2)
          else if value = 1 then
            let r := x8h7_reset_state (some ⟨some nd, some bd⟩) false s
            (Except.ok buf.length, r.1, r.2)
          else
            (Except.error (-EINVAL), s,
             [Event.devErr "Invalid value for control_mode (expected 0 or 1)"])
  | _ => (Except.error (-EINVAL), s, [])

/-- Environment of one probe call: the outcomes of the fallible host calls it
makes (allocation, the two acquisitions, sysfs group creation). -/
structure ProbeEnv where
  allocOk : Bool
  nrstAcq : Except Int GpioDesc
  boot0Acq : Except Int GpioDesc
  sysfsCreateRet : Int
deriving Repr

/-- x8h7_rst_probe (src/x8h7_reset.c:120-198): allocate, acquire nrst with
GPIOD_OUT_HIGH (drives logical 1), set nrst to 1, acquire boot0 with
GPIOD_OUT_HIGH (drives logical 1), set boot0 to 0, then create the sysfs
group; any failure aborts with that error. -/
def x8h7_rst_probe (env : ProbeEnv) (s : LineState) :
    Except Int X8h7RstData × LineState × List Event :=
  let tr0 : List Event :=
    [Event.printk "DAIM: probe function - START",
     Event.devInfo "My Custom LED driver probe function called!"]
  if env.allocOk = false then (Except.error (-ENOMEM), s, tr0)
  else
    match env.nrstAcq with
    | Except.error e =>
        (Except.error e, s, tr0 ++ [Event.devErr "Failed to get nrst-gpios descriptor"])
    | Except.ok nd =>
        let s1 : LineState := { s with nrstLevel := 1 }
        let tr1 := tr0 ++ [Event.acquireNrst 1, Event.printk "DAIM: nrst 1", Event.setNrst 1]
        match env.boot0Acq with
        | Except.error e =>
            (Except.error e, s1, tr1 ++ [Event.devErr "Failed to get boot0-gpios descriptor"])
        | Except.ok bd =>
            let s2 : LineState := { s1 with boot0Level := 0 }
            let tr2 := tr1 ++ [Event.acquireBoot0 1, Event.printk "DAIM: boot 0", Event.setBoot0 0]
            if env.sysfsCreateRet = 0 then
              (Except.ok ⟨some nd, some bd⟩, s2,
               tr2 ++ [Event.sysfsCreate, Event.printk "DAIM: sysFs created!",
                       Event.devInfo "Successfully probed"])
            else
              (Except.error env.sysfsCreateRet, s2,
               tr2 ++ [Event.devErr "Failed to create sysfs group for x8h7_rst"])

/-- x8h7_rst_remove (src/x8h7_reset.c:200-215): remove the sysfs group, then
drive each non-null line to (activeLow ? 1 : 0) — its physically low level —
and return 0. -/
def x8h7_rst_remove (data : X8h7RstData) (s : LineState) :
    Int × LineState × List Event :=
  let tr0 : List Event := [Event.devInfo "x8h7_reset driver remove called", Event.sysfsRemove]
  let r1 : LineState × List Event :=
    match data.nrst_gpio_desc with
    | some d =>
        let v : Int := if d.activeLow then 1 else 0
        ({ s with nrstLevel := v }, [Event.setNrst v])
    | none => (s, [])
  let r2 : LineState × List Event :=
    match data.boot0_gpio_desc with
    | some d =>
        let v : Int := if d.activeLow then 1 else 0
        ({ r1.1 with boot0Level := v }, [Event.setBoot0 v])
    | none => (r1.1, [])
  (0, r2.1, tr0 ++ r1.2 ++ r2.2)

/-- A line pair is canonical when it is Held-In-Reset (0, 1) or Running (1, 0). -/
def canonicalPair (s : LineState) : Prop :=
  s = ⟨0, 1⟩ ∨ s = ⟨1, 0⟩

/-- The startup sequence as the spec claims it, read on the probe's event
trace: an assert step driving nrst to 0 and boot0 to 1, then a blocking
50–51 ms delay, then a release step driving nrst to 1 and boot0 to 0, all of
it before any sysfs publication. -/
def startupSequenceClaim (tr : List Event) : Prop :=
  ∃ iR0 iB1 iD iR1 iB0 : Nat,
    iR0 < iD ∧ iB1 < iD ∧ iD < iR1 ∧ iD < iB0 ∧
    tr.get? iR0 = some (Event.setNrst 0) ∧
    tr.get? iB1 = some (Event.setBoot0 1) ∧
    (∃ lo hi, tr.get? iD = some (Event.delay lo hi) ∧ 50 ≤ lo ∧ hi ≤ 51) ∧
    tr.get? iR1 = some (Event.setNrst 1) ∧
    tr.get? iB0 = some (Event.setBoot0 0) ∧
    (∀ j, tr.get? j = some Event.sysfsCreate → iR1 < j ∧ iB0 < j)

/-- The detach postcondition as the spec claims it: whatever was commanded
last, both lines end at level 0 (reset asserted, boot-select de-asserted). -/
def detachLevelsClaim : Prop :=
  ∀ (data : X8h7RstData) (s : LineState),
    (x8h7_rst_remove data s).2.1 = ⟨0, 0⟩

/-- Write rejection exactly as the claim states it: every input that does not
parse to 0 or 1 fails with the invalid-argument error and changes nothing. -/
def writeInvalidClaim : Prop :=
  ∀ (nd bd : GpioDesc) (buf : String) (s : LineState),
    ¬(kstrtol buf = Except.ok 0 ∨ kstrtol buf = Except.ok 1) →
    (x8h7_reset_store (some ⟨some nd, some bd⟩) buf s).1 = Except.error (-EINVAL) ∧
    (x8h7_reset_store (some ⟨some nd, some bd⟩) buf s).2.1 = s

/-- kstrtol fails only with -EINVAL (malformed) or -ERANGE (out of range). -/
theorem kstrtol_error_mem (buf : String) (e : Int) (h : kstrtol buf = Except.error e) :
    e = -EINVAL ∨ e = -ERANGE := by
  simp only [kstrtol] at h
  repeat' split at h
  all_goals first
    | exact Or.inl (Except.error.inj h).symm
    | exact Or.inr (Except.error.inj h).symm
    | exact absurd h (by simp)

/-- kstrtol written over the input-class vocabulary: the same parse, with its
sign, digit run, trailing text and value named. -/
theorem kstrtol_cases (buf : String) :
    kstrtol buf =
      (if numDigits buf = [] then Except.error (-EINVAL)
       else if numRest buf = [] ∨ numRest buf = ['\n'] then
         if numeralValue buf < longMin ∨ longMax < numeralValue buf then
           Except.error (-ERANGE)
         else Except.ok (numeralValue buf)
       else Except.error (-EINVAL)) := rfl

/-- A malformed input fails the parse with exactly -EINVAL. -/
theorem kstrtol_of_malformed (buf : String) (h : ¬wellFormedNumeral buf) :
    kstrtol buf = Except.error (-EINVAL) := by
  rw [kstrtol_cases]
  by_cases h1 : numDigits buf = []
  · rw [if_pos h1]
  · rw [if_neg h1, if_neg (fun h2 => h ⟨h1, h2⟩)]

/-- A well-formed numeral outside the long range fails with exactly -ERANGE. -/
theorem kstrtol_of_out_of_range (buf : String) (h1 : wellFormedNumeral buf)
    (h2 : ¬inLongRange (numeralValue buf)) :
    kstrtol buf = Except.error (-ERANGE) := by
  rw [kstrtol_cases, if_neg h1.1, if_pos h1.2, if_pos ?_]
  by_cases hv : numeralValue buf < longMin
  · exact Or.inl hv
  · refine Or.inr ?_
    by_contra hv2
    exact h2 ⟨le_of_not_lt hv, le_of_not_lt hv2⟩

/-- A well-formed numeral in the long range parses to its value. -/
theorem kstrtol_of_in_range (buf : String) (h1 : wellFormedNumeral buf)
    (h2 : inLongRange (numeralValue buf)) :
    kstrtol buf = Except.ok (numeralValue buf) := by
  rw [kstrtol_cases, if_neg h1.1, if_pos h1.2, if_neg ?_]
  rintro (hv | hv)
  · exact absurd h2.1 (not_le.mpr hv)
  · exact absurd h2.2 (not_le.mpr hv)

/-- C1 (counterexample): on a successful probe the spec's claimed startup
sequence does not happen — the probe's trace never asserts the reset line
(never drives nrst to 0) and contains no 50–51 ms settle delay, so the
claimed assert / delay / release ordering is false on the code. -/
theorem c1_counterexample :
    ¬ startupSequenceClaim
        (x8h7_rst_probe ⟨true, Except.ok ⟨false⟩, Except.ok ⟨false⟩, 0⟩ ⟨0, 0⟩).2.2 := by
  rintro ⟨i1, i2, i3, i4, i5, -, -, -, -, h1, -⟩
  have hm : Event.setNrst 0
      ∈ (x8h7_rst_probe ⟨true, Except.ok ⟨false⟩, Except.ok ⟨false⟩, 0⟩ ⟨0, 0⟩).2.2 :=
    List.get?_mem h1
  revert hm
  decide

/-- C1 (amended): on a successful attach the probe leaves the lines in the
Running pair (1, 0); its trace contains no delay event at all and never
drives nrst to 0; the one sysfs publication happens after every line drive
(only log calls follow it). -/
theorem c1_startup_actual (nd bd : GpioDesc) (s : LineState) :
    (x8h7_rst_probe ⟨true, Except.ok nd, Except.ok bd, 0⟩ s).2.1 = ⟨1, 0⟩ ∧
    (x8h7_rst_probe ⟨true, Except.ok nd, Except.ok bd, 0⟩ s).2.2.all
        (fun e => !isDelayEvent e) = true ∧
    Event.setNrst 0 ∉ (x8h7_rst_probe ⟨true, Except.ok nd, Except.ok bd, 0⟩ s).2.2 ∧
    (∃ pre post,
      (x8h7_rst_probe ⟨true, Except.ok nd, Except.ok bd, 0⟩ s).2.2
          = pre ++ Event.sysfsCreate :: post ∧
      Event.sysfsCreate ∉ pre ∧
      post.all (fun e => !linesDriveEvent e) = true) := by
  have ht : (x8h7_rst_probe ⟨true, Except.ok nd, Except.ok bd, 0⟩ s).2.2
      = [Event.printk "DAIM: probe function - START",
         Event.devInfo "My Custom LED driver probe function called!",
         Event.acquireNrst 1, Event.printk "DAIM: nrst 1", Event.setNrst 1,
         Event.acquireBoot0 1, Event.printk "DAIM: boot 0", Event.setBoot0 0,
         Event.sysfsCreate, Event.printk "DAIM: sysFs created!",
         Event.devInfo "Successfully probed"] := rfl
  rw [ht]
  refine ⟨rfl, rfl, by decide, ?_⟩
  refine ⟨[Event.printk "DAIM: probe function - START",
           Event.devInfo "My Custom LED driver probe function called!",
           Event.acquireNrst 1, Event.printk "DAIM: nrst 1", Event.setNrst 1,
           Event.acquireBoot0 1, Event.printk "DAIM: boot 0", Event.setBoot0 0],
          [Event.printk "DAIM: sysFs created!", Event.devInfo "Successfully probed"],
          rfl, by decide, rfl⟩

/-- C2: the state classifier is a total pure function of the two line levels:
it returns 0 exactly when (nrst, boot0) = (0, 1), 1 exactly when (1, 0),
2 for every other pair, and nothing else is reachable. -/
theorem c2_classify_total (r b : Int) :
    (classify r b = 0 ↔ r = 0 ∧ b = 1) ∧
    (classify r b = 1 ↔ r = 1 ∧ b = 0) ∧
    (¬(r = 0 ∧ b = 1) → ¬(r = 1 ∧ b = 0) → classify r b = 2) ∧
    (classify r b = 0 ∨ classify r b = 1 ∨ classify r b = 2) := by
  unfold classify
  by_cases h1 : r = 0 ∧ b = 1 <;> by_cases h2 : r = 1 ∧ b = 0 <;> simp [h1, h2]

/-- C3: for a valid command c in 0 or 1, writing the decimal text of c to an
attached device succeeds and a subsequent read reports c. -/
theorem c3_write_then_read (c : Int) (hc : c = 0 ∨ c = 1) (nd bd : GpioDesc) (s : LineState) :
    (∃ n, (x8h7_reset_store (some ⟨some nd, some bd⟩) (toString c) s).1 = Except.ok n) ∧
    (x8h7_reset_show (some ⟨some nd, some bd⟩)
        (x8h7_reset_store (some ⟨some nd, some bd⟩) (toString c) s).2.1).1 = Except.ok c := by
  rcases hc with h | h <;> subst h <;> exact ⟨⟨_, rfl⟩, rfl⟩

/-- C3 witness: write then read at the concrete command 0. -/
theorem c3_write_then_read_witness :
    (∃ n, (x8h7_reset_store (some ⟨some ⟨false⟩, some ⟨false⟩⟩) (toString (0 : Int)) ⟨1, 0⟩).1
        = Except.ok n) ∧
    (x8h7_reset_show (some ⟨some ⟨false⟩, some ⟨false⟩⟩)
        (x8h7_reset_store (some ⟨some ⟨false⟩, some ⟨false⟩⟩) (toString (0 : Int)) ⟨1, 0⟩).2.1).1
      = Except.ok 0 :=
  c3_write_then_read 0 (Or.inl rfl) ⟨false⟩ ⟨false⟩ ⟨1, 0⟩

/-- C4 (counterexample): the numeral 9223372036854775808 (2^63) is not 0 or 1,
yet the write fails with -ERANGE, not with the invalid-argument error -EINVAL,
so the claim as stated is false on the code. -/
theorem c4_counterexample : ¬ writeInvalidClaim := by
  intro h
  have h5 := h ⟨false⟩ ⟨false⟩ "9223372036854775808" ⟨1, 0⟩ (by
    rw [show kstrtol "9223372036854775808" = Except.error (-ERANGE) from rfl]
    rintro (hx | hx) <;> exact Except.noConfusion hx)
  have hr : (x8h7_reset_store (some ⟨some ⟨false⟩, some ⟨false⟩⟩)
      "9223372036854775808" ⟨1, 0⟩).1 = Except.error (-ERANGE) := rfl
  have hbad := hr.symm.trans h5.1
  have : (-ERANGE : Int) = -EINVAL := Except.error.inj hbad
  rw [ERANGE, EINVAL] at this
  exact absurd this (by decide)

/-- C4 (amended): every input that does not parse to 0 or 1 makes the write
fail and leaves the line levels unchanged, so a subsequent read reports the
same value as before; the error is exactly -EINVAL when the input is not a
well-formed numeral, exactly -ERANGE when it is a well-formed numeral outside
the long range, and exactly -EINVAL when it is well formed and in range with
a value other than 0 and 1. -/
theorem c4_invalid_write_rejected (nd bd : GpioDesc) (buf : String) (s : LineState)
    (h : ¬(kstrtol buf = Except.ok 0 ∨ kstrtol buf = Except.ok 1)) :
    ((x8h7_reset_store (some ⟨some nd, some bd⟩) buf s).2.1 = s ∧
     (x8h7_reset_show (some ⟨some nd, some bd⟩)
         (x8h7_reset_store (some ⟨some nd, some bd⟩) buf s).2.1).1
       = (x8h7_reset_show (some ⟨some nd, some bd⟩) s).1) ∧
    (¬wellFormedNumeral buf →
      (x8h7_reset_store (some ⟨some nd, some bd⟩) buf s).1 = Except.error (-EINVAL)) ∧
    (wellFormedNumeral buf → ¬inLongRange (numeralValue buf) →
      (x8h7_reset_store (some ⟨some nd, some bd⟩) buf s).1 = Except.error (-ERANGE)) ∧
    (wellFormedNumeral buf → inLongRange (numeralValue buf) →
      (x8h7_reset_store (some ⟨some nd, some bd⟩) buf s).1 = Except.error (-EINVAL)) ∧
    ((x8h7_reset_store (some ⟨some nd, some bd⟩) buf s).1 = Except.error (-EINVAL) ∨
     (x8h7_reset_store (some ⟨some nd, some bd⟩) buf s).1 = Except.error (-ERANGE)) := by
  by_cases hw : wellFormedNumeral buf
  · by_cases hr : inLongRange (numeralValue buf)
    · have hk := kstrtol_of_in_range buf hw hr
      have h0 : numeralValue buf ≠ 0 := fun hv => h (Or.inl (hv ▸ hk))
      have h1 : numeralValue buf ≠ 1 := fun hv => h (Or.inr (hv ▸ hk))
      have hst : x8h7_reset_store (some ⟨some nd, some bd⟩) buf s
          = (Except.error (-EINVAL), s,
             [Event.devErr "Invalid value for control_mode (expected 0 or 1)"]) := by
        simp [x8h7_reset_store, hk, h0, h1]
      rw [hst]
      exact ⟨⟨rfl, rfl⟩, fun hw2 => absurd hw hw2, fun _ h2 => absurd hr h2,
             fun _ _ => rfl, Or.inl rfl⟩
    · have hk := kstrtol_of_out_of_range buf hw hr
      have hst : x8h7_reset_store (some ⟨some nd, some bd⟩) buf s
          = (Except.error (-ERANGE), s, []) := by
        simp [x8h7_reset_store, hk]
      rw [hst]
      exact ⟨⟨rfl, rfl⟩, fun hw2 => absurd hw hw2, fun _ _ => rfl,
             fun _ h2 => absurd h2 hr, Or.inr rfl⟩
  · have hk := kstrtol_of_malformed buf hw
    have hst : x8h7_reset_store (some ⟨some nd, some bd⟩) buf s
        = (Except.error (-EINVAL), s, []) := by
      simp [x8h7_reset_store, hk]
    rw [hst]
    exact ⟨⟨rfl, rfl⟩, fun _ => rfl, fun h1 _ => absurd h1 hw, fun h1 _ => absurd h1 hw,
           Or.inl rfl⟩

/-- C4 witness: the rejected write at the concrete input "5", a well-formed
in-range numeral outside 0 and 1, so the -EINVAL branch is exercised. -/
theorem c4_invalid_write_rejected_witness :
    ((x8h7_reset_store (some ⟨some ⟨false⟩, some ⟨false⟩⟩) "5" ⟨1, 0⟩).2.1 = ⟨1, 0⟩ ∧
     (x8h7_reset_show (some ⟨some ⟨false⟩, some ⟨false⟩⟩)
         (x8h7_reset_store (some ⟨some ⟨false⟩, some ⟨false⟩⟩) "5" ⟨1, 0⟩).2.1).1
       = (x8h7_reset_show (some ⟨some ⟨false⟩, some ⟨false⟩⟩) ⟨1, 0⟩).1) ∧
    (¬wellFormedNumeral "5" →
      (x8h7_reset_store (some ⟨some ⟨false⟩, some ⟨false⟩⟩) "5" ⟨1, 0⟩).1
        = Except.error (-EINVAL)) ∧
    (wellFormedNumeral "5" → ¬inLongRange (numeralValue "5") →
      (x8h7_reset_store (some ⟨some ⟨false⟩, some ⟨false⟩⟩) "5" ⟨1, 0⟩).1
        = Except.error (-ERANGE)) ∧
    (wellFormedNumeral "5" → inLongRange (numeralValue "5") →
      (x8h7_reset_store (some ⟨some ⟨false⟩, some ⟨false⟩⟩) "5" ⟨1, 0⟩).1
        = Except.error (-EINVAL)) ∧
    ((x8h7_reset_store (some ⟨some ⟨false⟩, some ⟨false⟩⟩) "5" ⟨1, 0⟩).1
        = Except.error (-EINVAL) ∨
     (x8h7_reset_store (some ⟨some ⟨false⟩, some ⟨false⟩⟩) "5" ⟨1, 0⟩).1
        = Except.error (-ERANGE)) :=
  c4_invalid_write_rejected ⟨false⟩ ⟨false⟩ "5" ⟨1, 0⟩ (by
    rw [show kstrtol "5" = Except.ok 5 from rfl]
    rintro (hx | hx) <;> (injection hx with hx'; exact absurd hx' (by decide)))

/-- C5 (counterexample): detach does not always leave (0, 0) — with an
active-low nrst descriptor the remove path drives nrst to logical 1, so the
claimed level pair is false on the code. -/
theorem c5_counterexample : ¬ detachLevelsClaim := fun h =>
  absurd (h ⟨some ⟨true⟩, some ⟨false⟩⟩ ⟨1, 0⟩) (by decide)

/-- C5 (amended): detach unconditionally drives each line to its physically
low level — logical 1 when the line is active-low, logical 0 otherwise —
regardless of the previous state; the sysfs interface is removed before any
line is driven; only when both lines are active-high is the resulting pair
the claimed (0, 0). -/
theorem c5_detach_failsafe (nd bd : GpioDesc) (s : LineState) :
    (x8h7_rst_remove ⟨some nd, some bd⟩ s).2.1
        = ⟨if nd.activeLow then 1 else 0, if bd.activeLow then 1 else 0⟩ ∧
    (∃ pre post,
      (x8h7_rst_remove ⟨some nd, some bd⟩ s).2.2 = pre ++ Event.sysfsRemove :: post ∧
      pre.all (fun e => !linesDriveEvent e) = true) ∧
    (nd.activeLow = false → bd.activeLow = false →
      (x8h7_rst_remove ⟨some nd, some bd⟩ s).2.1 = ⟨0, 0⟩) := by
  refine ⟨rfl, ⟨[Event.devInfo "x8h7_reset driver remove called"], _, rfl, rfl⟩, ?_⟩
  intro h1 h2
  simp [x8h7_rst_remove, h1, h2]

/-- C6: whenever the probe returns success, reading the published attribute
on the resulting device data reports 1 (Running): the probe left the lines
at (nrst, boot0) = (1, 0). -/
theorem c6_read_after_attach (env : ProbeEnv) (s : LineState) (d : X8h7RstData)
    (h : (x8h7_rst_probe env s).1 = Except.ok d) :
    (x8h7_reset_show (some d) (x8h7_rst_probe env s).2.1).1 = Except.ok 1 := by
  rcases env with ⟨alloc, nacq, bacq, sret⟩
  cases alloc
  · simp [x8h7_rst_probe] at h
  · rcases nacq with e | nd
    · simp [x8h7_rst_probe] at h
    · rcases bacq with e | bd
      · simp [x8h7_rst_probe] at h
      · by_cases hs : sret = 0
        · subst hs
          have hd : d = ⟨some nd, some bd⟩ := by
            have := h.symm
            simpa [x8h7_rst_probe] using this
          subst hd
          rfl
        · simp [x8h7_rst_probe, hs] at h

/-- C6 witness: a concrete successful probe followed by a read reporting 1. -/
theorem c6_read_after_attach_witness :
    (x8h7_reset_show (some ⟨some ⟨false⟩, some ⟨false⟩⟩)
        (x8h7_rst_probe ⟨true, Except.ok ⟨false⟩, Except.ok ⟨false⟩, 0⟩ ⟨0, 0⟩).2.1).1
      = Except.ok 1 :=
  c6_read_after_attach ⟨true, Except.ok ⟨false⟩, Except.ok ⟨false⟩, 0⟩ ⟨0, 0⟩
    ⟨some ⟨false⟩, some ⟨false⟩⟩ rfl

/-- C7: after a successful probe and after every successful write the line
pair is canonical — Held-In-Reset (0, 1) or Running (1, 0) — and a canonical
pair never classifies as Indeterminate. -/
theorem c7_canonical_after_ops :
    (∀ (env : ProbeEnv) (s : LineState) (d : X8h7RstData),
        (x8h7_rst_probe env s).1 = Except.ok d →
        canonicalPair (x8h7_rst_probe env s).2.1) ∧
    (∀ (data : Option X8h7RstData) (buf : String) (s : LineState) (n : Nat),
        (x8h7_reset_store data buf s).1 = Except.ok n →
        canonicalPair (x8h7_reset_store data buf s).2.1) ∧
    (∀ s : LineState, canonicalPair s → classify s.nrstLevel s.boot0Level ≠ 2) := by
  refine ⟨?_, ?_, ?_⟩
  · intro env s d h
    rcases env with ⟨alloc, nacq, bacq, sret⟩
    cases alloc
    · simp [x8h7_rst_probe] at h
    · rcases nacq with e | nd
      · simp [x8h7_rst_probe] at h
      · rcases bacq with e | bd
        · simp [x8h7_rst_probe] at h
        · by_cases hs : sret = 0
          · subst hs
            right
            rfl
          · simp [x8h7_rst_probe, hs] at h
  · intro data buf s n h
    rcases data with _ | ⟨_ | nd, _ | bd⟩
    · simp [x8h7_reset_store] at h
    · simp [x8h7_reset_store] at h
    · simp [x8h7_reset_store] at h
    · simp [x8h7_reset_store] at h
    · rcases hk : kstrtol buf with e | v
      · simp [x8h7_reset_store, hk] at h
      · by_cases h0 : v = 0
        · subst h0
          simp [x8h7_reset_store, hk, x8h7_reset_state, canonicalPair]
        · by_cases h1 : v = 1
          · subst h1
            simp [x8h7_reset_store, hk, x8h7_reset_state, canonicalPair]
          · simp [x8h7_reset_store, hk, h0, h1] at h
  · intro s hc
    rcases hc with h | h <;> subst h <;> decide

/-- C8: a write parsing to 0 drives the Held-In-Reset pair (0, 1), a write
parsing to 1 drives the Running pair (1, 0), and every successful write
returns the number of input bytes consumed. -/
theorem c8_write_commands (nd bd : GpioDesc) (buf : String) (s : LineState) :
    (kstrtol buf = Except.ok 0 →
        (x8h7_reset_store (some ⟨some nd, some bd⟩) buf s).2.1 = ⟨0, 1⟩ ∧
        (x8h7_reset_store (some ⟨some nd, some bd⟩) buf s).1 = Except.ok buf.length) ∧
    (kstrtol buf = Except.ok 1 →
        (x8h7_reset_store (some ⟨some nd, some bd⟩) buf s).2.1 = ⟨1, 0⟩ ∧
        (x8h7_reset_store (some ⟨some nd, some bd⟩) buf s).1 = Except.ok buf.length) ∧
    (∀ n, (x8h7_reset_store (some ⟨some nd, some bd⟩) buf s).1 = Except.ok n →
        n = buf.length) := by
  refine ⟨?_, ?_, ?_⟩
  · intro hk
    simp [x8h7_reset_store, hk, x8h7_reset_state]
  · intro hk
    simp [x8h7_reset_store, hk, x8h7_reset_state]
  · intro n h
    rcases hk : kstrtol buf with e | v
    · simp [x8h7_reset_store, hk] at h
    · by_cases h0 : v = 0
      · subst h0
        simp [x8h7_reset_store, hk] at h
        omega
      · by_cases h1 : v = 1
        · subst h1
          simp [x8h7_reset_store, hk] at h
          omega
        · simp [x8h7_reset_store, hk, h0, h1] at h

/-- C9: the read path never modifies the controller: the line state it
returns is the input state, and a successful read reports exactly the
classification of that untouched state. -/
theorem c9_read_frame (data : Option X8h7RstData) (s : LineState) :
    (x8h7_reset_show data s).2 = s ∧
    (∀ v, (x8h7_reset_show data s).1 = Except.ok v → v = classify s.nrstLevel s.boot0Level) := by
  constructor
  · rcases data with _ | ⟨_ | d1, _ | d2⟩ <;> rfl
  · intro v hv
    rcases data with _ | ⟨_ | d1, _ | d2⟩ <;> simp [x8h7_reset_show] at hv
    omega

/-- C10: the two-line driver helper is a silent no-op — unchanged state and
an empty trace, so no drive, no log, no error — whenever the data pointer is
null or either descriptor is null, for both values of the reset argument. -/
theorem c10_reset_state_null_noop (reset : Bool) (s : LineState) :
    x8h7_reset_state none reset s = (s, []) ∧
    (∀ d : X8h7RstData, (d.nrst_gpio_desc = none ∨ d.boot0_gpio_desc = none) →
      x8h7_reset_state (some d) reset s = (s, [])) := by
  constructor
  · rfl
  · rintro ⟨_ | d1, _ | d2⟩ h <;> first | rfl | (rcases h with h | h <;> simp at h)

end X8h7
